import Mathlib

/-!
Shallow embedding of `chainer/initializers/constant.py`: the `Identity`,
`_Constant`/`Constant`, `Zero`, `One` and `NaN` initializers, together with
proofs of the specified properties.

Arrays are modelled as a shape (list of dimension sizes), a dtype tag, a
device tag, and a flat (row-major) data buffer.  Array elements are modelled
by `Val`: an exact numeric value or the IEEE NaN payload (needed for the
`NaN` initializer); ordinary numeric scalars are embedded as integers.
Python exceptions are modelled with `Except`: `AssertionError` (the dtype
assertion) and `ValueError` (carrying the message of the raise statement).
-/

namespace Chainer

/-- Data-type tags of arrays (`array.dtype`). -/
inductive Dtype where
  | float16
  | float32
  | float64
deriving DecidableEq

/-- Compute devices an array can reside on (host, GPU, accelerator). -/
inductive Device where
  | cpu
  | gpu
  | accel
deriving DecidableEq

/-- An array element: an exact numeric value, or NaN. -/
inductive Val where
  | num (x : Int)
  | nan
deriving DecidableEq

/-- The NaN predicate on elements. -/
def Val.isNaN : Val → Bool
  | .nan => true
  | .num _ => false

/-- A device array: shape, dtype, device, and flat row-major contents. -/
structure Arr where
  shape : List Nat
  dtype : Dtype
  device : Device
  data : List Val
deriving DecidableEq

/-- Number of elements an array of the given shape holds. -/
def prodShape (s : List Nat) : Nat := s.foldr (· * ·) 1

/-- Well-formed array: the buffer length matches the shape. -/
def Arr.Wf (a : Arr) : Prop := a.data.length = prodShape a.shape

/-- Python exceptions raised by this module: the `assert` statement on dtype
and `raise ValueError(msg)`. -/
inductive PyErr where
  | assertionError
  | valueError (msg : String)
deriving DecidableEq

/-- The message of the `raise ValueError` in `Identity.__call__`. -/
def identityShapeMsg : String :=
  "Identity matrix initialization can only be used for 2D squared matrices."

/-- The message of the `raise ValueError` in `_Constant.__init__`. -/
def fillValueMsg : String :=
  "fill_value must be either scalar, numpy.ndarray, cupy.ndarray or chainerx.ndarray."

/-- Modelled from the spec: `backend.get_device_from_array` (the file
`chainer/backend.py` is not part of this excerpt) — "a way to determine
which device an array resides on". -/
def get_device_from_array (a : Arr) : Device := a.device

/-- The lines `if self.dtype is not None: assert array.dtype == self.dtype`
shared by `Identity.__call__` and `_Constant.__call__`. -/
def dtypeAssert (dtype : Option Dtype) (array : Arr) : Except PyErr Unit :=
  match dtype with
  | none => .ok ()
  | some dt => if array.dtype = dt then .ok () else .error .assertionError

/-- The dtype precondition: the declared dtype, when present, equals the
array's dtype. -/
def dtypeOk (dtype : Option Dtype) (a : Arr) : Bool :=
  match dtype with
  | none => true
  | some dt => a.dtype = dt

/-- `device.xp.identity(shape[0]) * self.scale`: the flat contents of the
`n`-by-`n` identity matrix scaled by `s` (entry `(i, j)` sits at flat index
`i * n + j`, and `i = k / n`, `j = k % n`). -/
def identityTimes (n : Nat) (s : Int) : List Val :=
  (List.range (n * n)).map (fun k => if k / n = k % n then Val.num s else Val.num 0)

/-- The `Identity` initializer: `scale` (default 1.0) and the optional
`dtype` held by the `initializer.Initializer` base class. -/
structure Identity where
  scale : Int := 1
  dtype : Option Dtype := none

/-- `Identity.__call__(array)`: assert the dtype, validate that the shape is
2-D square (else `raise ValueError`), then assign
`device.xp.identity(shape[0]) * self.scale` into the whole array. -/
def Identity.call (self : Identity) (array : Arr) : Except PyErr Arr :=
  match dtypeAssert self.dtype array with
  | .error e => .error e
  | .ok _ =>
    if array.shape.length ≠ 2 ∨ array.shape.getD 0 0 ≠ array.shape.getD 1 0 then
      .error (PyErr.valueError identityShapeMsg)
    else
      .ok { array with data := identityTimes (array.shape.getD 0 0) self.scale }

lemma dtypeAssert_ok_of_dtypeOk {dto : Option Dtype} {a : Arr}
    (h : dtypeOk dto a = true) : dtypeAssert dto a = .ok () := by
  cases dto with
  | none => rfl
  | some dt =>
    simp only [dtypeOk, decide_eq_true_eq] at h
    simp [dtypeAssert, h]

lemma identityTimes_entry {n i j : Nat} (s : Int) (hi : i < n) (hj : j < n) :
    (identityTimes n s).getD (i * n + j) (Val.num 0)
      = (if i = j then Val.num s else Val.num 0) := by
  have hn : 0 < n := by omega
  have hk : i * n + j < n * n := by
    calc i * n + j < i * n + n := by omega
    _ = (i + 1) * n := by ring
    _ ≤ n * n := Nat.mul_le_mul_right n hi
  have hdiv : (i * n + j) / n = i := by
    rw [Nat.mul_comm i n, Nat.mul_add_div hn]
    simp [Nat.div_eq_of_lt hj]
  have hmod : (i * n + j) % n = j := by
    rw [Nat.mul_comm i n, Nat.mul_add_mod]
    exact Nat.mod_eq_of_lt hj
  have hlen : (i * n + j) < ((List.range (n * n)).map
      (fun k => if k / n = k % n then Val.num s else Val.num 0)).length := by
    simpa using hk
  rw [identityTimes, List.getD_eq_getElem _ _ hlen]
  simp [hdiv, hmod, hk]

/-- C1: applying `Identity(scale=s)` to an `n`-by-`n` zero-initialized array
(`n ≥ 1`) succeeds and writes `s` at every diagonal position `(i, i)` and `0`
at every off-diagonal position `(i, j)`, `i ≠ j`. -/
theorem identity_scaled_diag (s : Int) (dt : Dtype) (dev : Device) (n i j : Nat)
    (hn : 1 ≤ n) (hi : i < n) (hj : j < n) :
    ∃ r, Identity.call { scale := s, dtype := none }
        ⟨[n, n], dt, dev, List.replicate (n * n) (Val.num 0)⟩ = .ok r ∧
      r.data.getD (i * n + j) (Val.num 0) = (if i = j then Val.num s else Val.num 0) := by
  refine ⟨⟨[n, n], dt, dev, identityTimes n s⟩, ?_, identityTimes_entry s hi hj⟩
  simp [Identity.call, dtypeAssert]

theorem identity_scaled_diag_witness :
    ∃ r, Identity.call { scale := 5, dtype := none }
        ⟨[2, 2], Dtype.float32, Device.cpu, List.replicate (2 * 2) (Val.num 0)⟩ = .ok r ∧
      r.data.getD (0 * 2 + 1) (Val.num 0) = (if 0 = 1 then Val.num 5 else Val.num 0) :=
  identity_scaled_diag 5 Dtype.float32 Device.cpu 2 0 1 (by decide) (by decide) (by decide)

/-- C2: applying `Identity` to an array that is not 2-D or not square, when
the dtype precondition holds, raises the `ValueError` naming the violated
constraint; no array is produced, so the input is left unchanged. -/
theorem identity_shape_error (init : Identity) (A : Arr)
    (hdt : dtypeOk init.dtype A = true)
    (hshape : A.shape.length ≠ 2 ∨ A.shape.getD 0 0 ≠ A.shape.getD 1 0) :
    Identity.call init A = .error (PyErr.valueError identityShapeMsg) := by
  rw [Identity.call, dtypeAssert_ok_of_dtypeOk hdt]
  exact if_pos hshape

theorem identity_shape_error_witness :
    Identity.call { scale := 1, dtype := none }
        ⟨[2, 3], Dtype.float32, Device.cpu, List.replicate 6 (Val.num 7)⟩
      = .error (PyErr.valueError identityShapeMsg) :=
  identity_shape_error { scale := 1, dtype := none }
    ⟨[2, 3], Dtype.float32, Device.cpu, List.replicate 6 (Val.num 7)⟩
    (by decide) (by decide)

/-- The kind of value passed as `fill_value`: a numeric scalar
(`numpy.isscalar` holds), a device array (an instance of one of the types in
`chainer.get_array_types()`), or any other object. -/
inductive FillValue where
  | scalar (v : Val)
  | array (x : Arr)
  | other
deriving DecidableEq

/-- Modelled from the spec: `isinstance(fill_value, chainer.get_array_types())`
(the function `chainer.get_array_types` is not part of this excerpt) — the
fill value is "an array-like value of a device-recognized numeric-array kind". -/
def isArrayType : FillValue → Bool
  | .array _ => true
  | _ => false

/-- `numpy.isscalar(fill_value)`: the fill value is a plain numeric scalar. -/
def isScalar : FillValue → Bool
  | .scalar _ => true
  | _ => false

/-- A `_Constant` (or `Constant`) instance: the stored `fill_value` and the
optional `dtype` held by the `initializer.Initializer` base class. -/
structure Constant where
  fill_value : FillValue
  dtype : Option Dtype
deriving DecidableEq

/-- `_Constant.__init__` (reached through `Constant.__init__`, which first
stores `fill_value`): raise `ValueError` unless `fill_value` is an instance
of `chainer.get_array_types()` or `numpy.isscalar(fill_value)` holds. -/
def Constant.make (fill_value : FillValue) (dtype : Option Dtype) : Except PyErr Constant :=
  if !(isArrayType fill_value || isScalar fill_value) then
    .error (PyErr.valueError fillValueMsg)
  else
    .ok { fill_value := fill_value, dtype := dtype }

/-- `Zero(dtype)`: `_Constant` with class-level `fill_value = 0.0`. -/
def Zero.make (dtype : Option Dtype) : Except PyErr Constant :=
  Constant.make (FillValue.scalar (Val.num 0)) dtype

/-- `One(dtype)`: `_Constant` with class-level `fill_value = 1.0`. -/
def One.make (dtype : Option Dtype) : Except PyErr Constant :=
  Constant.make (FillValue.scalar (Val.num 1)) dtype

/-- `NaN(dtype)`: `_Constant` with class-level `fill_value = numpy.nan`. -/
def NaN.make (dtype : Option Dtype) : Except PyErr Constant :=
  Constant.make (FillValue.scalar Val.nan) dtype

/-- Row-major multi-index of the flat position `k` in an array of the given
shape. -/
def unflatten : List Nat → Nat → List Nat
  | [], _ => []
  | _ :: rest, k => k / prodShape rest :: unflatten rest (k % prodShape rest)

/-- Flat position of a row-major multi-index in an array of the given shape. -/
def flattenIdx : List Nat → List Nat → Nat
  | _ :: rest, i :: ix => i * prodShape rest + flattenIdx rest ix
  | _, _ => 0

/-- Standard broadcasting of a destination multi-index onto a source shape:
align shapes on the right (drop the leading coordinates the source lacks)
and clamp coordinates of size-1 source dimensions to 0. -/
def bcastIdx (srcShape ix : List Nat) : List Nat :=
  List.zipWith (fun d i => if d = 1 then 0 else i)
    srcShape (ix.drop (ix.length - srcShape.length))

/-- The contents written into a destination of shape `dstShape` by a
broadcast copy from a source of shape `srcShape` with flat contents
`srcData`, per standard array-broadcasting rules. -/
def broadcastData (srcShape : List Nat) (srcData : List Val) (dstShape : List Nat) : List Val :=
  (List.range (prodShape dstShape)).map
    (fun k => srcData.getD (flattenIdx srcShape (bcastIdx srcShape (unflatten dstShape k))) (Val.num 0))

/-- Modelled from the spec: `backend.copyto(dst, src)` (the file
`chainer/backend.py` is not part of this excerpt) — "a way to copy array
contents across devices with correct broadcasting": the source contents are
broadcast into the destination's shape and land on the destination's device;
the destination's shape, dtype and device are unchanged. -/
def copyto (dst src : Arr) : Arr :=
  { dst with data := broadcastData src.shape src.data dst.shape }

/-- `_Constant.__call__(array)`: assert the dtype; if `fill_value` is a
device array, `backend.copyto(array, self.fill_value)`; otherwise (a scalar)
assign `device.xp.asarray(self.fill_value)` into the whole array, i.e. fill
every element with the scalar.  (The `other` arm is unreachable: no instance
with an unrecognized `fill_value` survives `_Constant.__init__`.) -/
def Constant.call (self : Constant) (array : Arr) : Except PyErr Arr :=
  match dtypeAssert self.dtype array with
  | .error e => .error e
  | .ok _ =>
    match self.fill_value with
    | .array x => .ok (copyto array x)
    | .scalar v => .ok { array with data := List.replicate (prodShape array.shape) v }
    | .other => .error (PyErr.valueError fillValueMsg)

/-- C3: `_Constant.__init__` raises `ValueError` exactly when `fill_value`
is neither a recognized device-array type nor a numeric scalar, and
construction succeeds (with the array never touched) exactly when it is a
scalar or a recognized array type. -/
theorem constant_construction_validates (fv : FillValue) (dto : Option Dtype) :
    (Constant.make fv dto = .error (PyErr.valueError fillValueMsg)
      ↔ (isScalar fv = false ∧ isArrayType fv = false)) ∧
    (Constant.make fv dto = .ok { fill_value := fv, dtype := dto }
      ↔ (isScalar fv = true ∨ isArrayType fv = true)) := by
  cases fv <;> simp [Constant.make, isScalar, isArrayType]

lemma unflatten_cons (d : Nat) (rest : List Nat) (k : Nat) :
    unflatten (d :: rest) k = k / prodShape rest :: unflatten rest (k % prodShape rest) := rfl

lemma flattenIdx_cons (d : Nat) (rest : List Nat) (i : Nat) (ix : List Nat) :
    flattenIdx (d :: rest) (i :: ix) = i * prodShape rest + flattenIdx rest ix := rfl

lemma unflatten_length (s : List Nat) (k : Nat) : (unflatten s k).length = s.length := by
  induction s generalizing k with
  | nil => rfl
  | cons d rest ih => simp [unflatten, ih]

lemma unflatten_round (s : List Nat) : ∀ k, k < prodShape s →
    bcastIdx s (unflatten s k) = unflatten s k ∧ flattenIdx s (unflatten s k) = k := by
  induction s with
  | nil =>
    intro k hk
    have hk0 : k = 0 := by
      have : k < 1 := hk
      omega
    subst hk0
    exact ⟨rfl, rfl⟩
  | cons d rest ih =>
    intro k hk
    have hdp : 0 < d * prodShape rest := Nat.lt_of_le_of_lt (Nat.zero_le k) hk
    have hp : 0 < prodShape rest := by
      rcases Nat.eq_zero_or_pos (prodShape rest) with h | h
      · rw [h, Nat.mul_zero] at hdp
        exact absurd hdp (by omega)
      · exact h
    obtain ⟨ihb, ihf⟩ := ih (k % prodShape rest) (Nat.mod_lt k hp)
    have hlen : (unflatten rest (k % prodShape rest)).length = rest.length :=
      unflatten_length rest (k % prodShape rest)
    have hzip : List.zipWith (fun d i => if d = 1 then 0 else i) rest
        (unflatten rest (k % prodShape rest)) = unflatten rest (k % prodShape rest) := by
      have := ihb
      rw [bcastIdx, hlen, Nat.sub_self, List.drop_zero] at this
      exact this
    have hq : (if d = 1 then 0 else k / prodShape rest) = k / prodShape rest := by
      by_cases hd : d = 1
      · subst hd
        have hk1 : k < prodShape rest := by
          have hcons : prodShape (1 :: rest) = 1 * prodShape rest := rfl
          have hone : 1 * prodShape rest = prodShape rest := Nat.one_mul _
          omega
        simp [Nat.div_eq_of_lt hk1]
      · simp [hd]
    constructor
    · rw [unflatten_cons, bcastIdx]
      simp only [List.length_cons, hlen, Nat.sub_self, List.drop_zero, List.zipWith_cons_cons]
      rw [hq, hzip]
    · rw [unflatten_cons, flattenIdx_cons, ihf, Nat.mul_comm]
      exact Nat.div_add_mod k (prodShape rest)

lemma broadcastData_self (s : List Nat) (d : List Val) (hd : d.length = prodShape s) :
    broadcastData s d s = d := by
  apply List.ext_getElem
  · simp [broadcastData, hd]
  · intro k h1 h2
    have hk : k < prodShape s := by simpa [broadcastData] using h1
    obtain ⟨hb, hf⟩ := unflatten_round s k hk
    simp only [broadcastData, List.getElem_map, List.getElem_range]
    rw [hb, hf]
    exact List.getD_eq_getElem d _ (by omega)

/-- C4: applying a `Constant` with scalar `fill_value` `v` to any well-formed
array satisfying the dtype precondition succeeds, keeps the element count,
and makes every element equal to `v` — in particular `Zero`, `One` and `NaN`
are `_Constant`s with scalar fills `0`, `1` and NaN (NaN satisfying the NaN
predicate), so they fill with all zeros, all ones and all NaNs. -/
theorem constant_scalar_fills (v : Val) (A : Arr) (dto : Option Dtype)
    (hWf : A.Wf) (hdt : dtypeOk dto A = true) :
    ∃ r, Constant.call { fill_value := FillValue.scalar v, dtype := dto } A = .ok r ∧
      r.data.length = A.data.length ∧
      (∀ k, k < r.data.length → r.data.getD k (Val.num 0) = v) ∧
      (v = Val.nan → ∀ k, k < r.data.length → (r.data.getD k (Val.num 0)).isNaN = true) ∧
      Zero.make none = .ok { fill_value := FillValue.scalar (Val.num 0), dtype := none } ∧
      One.make none = .ok { fill_value := FillValue.scalar (Val.num 1), dtype := none } ∧
      NaN.make none = .ok { fill_value := FillValue.scalar Val.nan, dtype := none } := by
  simp only [Arr.Wf] at hWf
  have hfill : ∀ k, k < (List.replicate (prodShape A.shape) v).length →
      (List.replicate (prodShape A.shape) v).getD k (Val.num 0) = v := by
    intro k hk
    rw [List.getD_eq_getElem _ _ hk]
    simp
  refine ⟨{ A with data := List.replicate (prodShape A.shape) v }, ?_, ?_, hfill, ?_, rfl, rfl, rfl⟩
  · rw [Constant.call, dtypeAssert_ok_of_dtypeOk hdt]
  · simpa using hWf.symm
  · intro hv k hk
    rw [hfill k hk, hv]
    rfl

theorem constant_scalar_fills_witness :
    ∃ r, Constant.call { fill_value := FillValue.scalar (Val.num 5), dtype := none }
        ⟨[2, 2], Dtype.float32, Device.cpu, List.replicate 4 (Val.num 9)⟩ = .ok r ∧
      r.data.length = (List.replicate 4 (Val.num 9)).length ∧
      (∀ k, k < r.data.length → r.data.getD k (Val.num 0) = Val.num 5) ∧
      (Val.num 5 = Val.nan → ∀ k, k < r.data.length →
        (r.data.getD k (Val.num 0)).isNaN = true) ∧
      Zero.make none = .ok { fill_value := FillValue.scalar (Val.num 0), dtype := none } ∧
      One.make none = .ok { fill_value := FillValue.scalar (Val.num 1), dtype := none } ∧
      NaN.make none = .ok { fill_value := FillValue.scalar Val.nan, dtype := none } :=
  constant_scalar_fills (Val.num 5)
    ⟨[2, 2], Dtype.float32, Device.cpu, List.replicate 4 (Val.num 9)⟩ none
    (by rfl) (by rfl)

/-- C5: applying a `Constant` whose `fill_value` is a well-formed device
array `x` of the same shape to a target array `t` on a different device
(dtype precondition satisfied) succeeds, and the result resides on the
target's device with contents element-wise equal to `x`'s values. -/
theorem constant_array_cross_device (x t : Arr) (dto : Option Dtype)
    (hdt : dtypeOk dto t = true) (hsh : x.shape = t.shape)
    (hx : x.Wf) (hdev : x.device ≠ t.device) :
    ∃ r, Constant.call { fill_value := FillValue.array x, dtype := dto } t = .ok r ∧
      r.device = t.device ∧ r.shape = t.shape ∧ r.dtype = t.dtype ∧ r.data = x.data := by
  refine ⟨copyto t x, ?_, rfl, rfl, rfl, ?_⟩
  · rw [Constant.call, dtypeAssert_ok_of_dtypeOk hdt]
  · show broadcastData x.shape x.data t.shape = x.data
    rw [← hsh]
    exact broadcastData_self x.shape x.data (by simpa [Arr.Wf] using hx)

theorem constant_array_cross_device_witness :
    ∃ r, Constant.call
        { fill_value := FillValue.array ⟨[2], Dtype.float32, Device.gpu, [Val.num 1, Val.num 2]⟩,
          dtype := none }
        ⟨[2], Dtype.float32, Device.cpu, [Val.num 0, Val.num 0]⟩ = .ok r ∧
      r.device = Device.cpu ∧ r.shape = [2] ∧ r.dtype = Dtype.float32 ∧
      r.data = [Val.num 1, Val.num 2] :=
  constant_array_cross_device
    ⟨[2], Dtype.float32, Device.gpu, [Val.num 1, Val.num 2]⟩
    ⟨[2], Dtype.float32, Device.cpu, [Val.num 0, Val.num 0]⟩ none
    (by rfl) (by rfl) (by rfl) (by decide)

lemma identity_call_data_irrel (idn : Identity) (a : Arr) (d : List Val) :
    Identity.call idn { a with data := d } = Identity.call idn a := rfl

lemma constant_call_data_irrel (c : Constant) (a : Arr) (d : List Val) :
    Constant.call c { a with data := d } = Constant.call c a := rfl

lemma identity_call_ok (idn : Identity) (A r : Arr)
    (h : Identity.call idn A = .ok r) : ∃ d, r = { A with data := d } := by
  rw [Identity.call] at h
  cases hass : dtypeAssert idn.dtype A with
  | error e => rw [hass] at h; simp at h
  | ok u =>
    rw [hass] at h
    by_cases hsh : A.shape.length ≠ 2 ∨ A.shape.getD 0 0 ≠ A.shape.getD 1 0
    · rw [if_pos hsh] at h; simp at h
    · rw [if_neg hsh] at h
      injection h with h2
      exact ⟨_, h2.symm⟩

lemma constant_call_ok (c : Constant) (A r : Arr)
    (h : Constant.call c A = .ok r) : ∃ d, r = { A with data := d } := by
  rw [Constant.call] at h
  cases hass : dtypeAssert c.dtype A with
  | error e => rw [hass] at h; simp at h
  | ok u =>
    rw [hass] at h
    cases hfv : c.fill_value with
    | array x =>
      rw [hfv] at h
      injection h with h2
      exact ⟨_, h2.symm⟩
    | scalar v =>
      rw [hfv] at h
      injection h with h2
      exact ⟨_, h2.symm⟩
    | other => rw [hfv] at h; simp at h

/-- C6: applying an initializer (Identity or Constant) constructed with a
declared dtype to an array of a different dtype fails with the fatal
`AssertionError`; when the array's dtype matches, or no dtype was declared,
the assertion never fires. -/
theorem dtype_assertion_behavior (dt : Dtype) (s : Int) (fv : FillValue) (A : Arr) :
    (A.dtype ≠ dt →
      Identity.call { scale := s, dtype := some dt } A = .error PyErr.assertionError ∧
      Constant.call { fill_value := fv, dtype := some dt } A = .error PyErr.assertionError) ∧
    (A.dtype = dt →
      Identity.call { scale := s, dtype := some dt } A ≠ .error PyErr.assertionError ∧
      Constant.call { fill_value := fv, dtype := some dt } A ≠ .error PyErr.assertionError) ∧
    (Identity.call { scale := s, dtype := none } A ≠ .error PyErr.assertionError ∧
      Constant.call { fill_value := fv, dtype := none } A ≠ .error PyErr.assertionError) := by
  refine ⟨fun h => ⟨?_, ?_⟩, fun h => ⟨?_, ?_⟩, ?_, ?_⟩
  · rw [Identity.call]; simp [dtypeAssert, h]
  · rw [Constant.call]; simp [dtypeAssert, h]
  · rw [Identity.call, dtypeAssert_ok_of_dtypeOk (by simp [dtypeOk, h])]
    by_cases hsh : A.shape.length ≠ 2 ∨ A.shape.getD 0 0 ≠ A.shape.getD 1 0 <;>
      first
      | (rw [if_pos hsh]; simp)
      | (rw [if_neg hsh]; simp)
  · rw [Constant.call, dtypeAssert_ok_of_dtypeOk (by simp [dtypeOk, h])]
    cases fv <;> simp
  · rw [Identity.call, dtypeAssert_ok_of_dtypeOk (by simp [dtypeOk])]
    by_cases hsh : A.shape.length ≠ 2 ∨ A.shape.getD 0 0 ≠ A.shape.getD 1 0 <;>
      first
      | (rw [if_pos hsh]; simp)
      | (rw [if_neg hsh]; simp)
  · rw [Constant.call, dtypeAssert_ok_of_dtypeOk (by simp [dtypeOk])]
    cases fv <;> simp

theorem dtype_assertion_behavior_witness :
    (Identity.call { scale := 1, dtype := some Dtype.float32 }
        ⟨[2, 2], Dtype.float64, Device.cpu, List.replicate 4 (Val.num 0)⟩
      = .error PyErr.assertionError ∧
     Constant.call { fill_value := FillValue.scalar (Val.num 0), dtype := some Dtype.float32 }
        ⟨[2, 2], Dtype.float64, Device.cpu, List.replicate 4 (Val.num 0)⟩
      = .error PyErr.assertionError) ∧
    (Identity.call { scale := 1, dtype := some Dtype.float32 }
        ⟨[2, 2], Dtype.float32, Device.cpu, List.replicate 4 (Val.num 0)⟩
      ≠ .error PyErr.assertionError ∧
     Constant.call { fill_value := FillValue.scalar (Val.num 0), dtype := some Dtype.float32 }
        ⟨[2, 2], Dtype.float32, Device.cpu, List.replicate 4 (Val.num 0)⟩
      ≠ .error PyErr.assertionError) :=
  ⟨(dtype_assertion_behavior Dtype.float32 1 (FillValue.scalar (Val.num 0))
      ⟨[2, 2], Dtype.float64, Device.cpu, List.replicate 4 (Val.num 0)⟩).1 (by decide),
   (dtype_assertion_behavior Dtype.float32 1 (FillValue.scalar (Val.num 0))
      ⟨[2, 2], Dtype.float32, Device.cpu, List.replicate 4 (Val.num 0)⟩).2.1 (by decide)⟩

/-- C7: whenever an apply succeeds (for Identity or for Constant, hence also
for Zero/One/NaN), the result has the same shape, dtype and device as the
input array: only the element contents are replaced. -/
theorem apply_preserves_shape_dtype (idn : Identity) (c : Constant) (A rI rC : Arr) :
    (Identity.call idn A = .ok rI →
      rI.shape = A.shape ∧ rI.dtype = A.dtype ∧ rI.device = A.device) ∧
    (Constant.call c A = .ok rC →
      rC.shape = A.shape ∧ rC.dtype = A.dtype ∧ rC.device = A.device) := by
  constructor
  · intro h
    obtain ⟨d, rfl⟩ := identity_call_ok idn A rI h
    exact ⟨rfl, rfl, rfl⟩
  · intro h
    obtain ⟨d, rfl⟩ := constant_call_ok c A rC h
    exact ⟨rfl, rfl, rfl⟩

theorem apply_preserves_shape_dtype_witness :
    ((⟨[1, 1], Dtype.float32, Device.cpu, [Val.num 1]⟩ : Arr).shape
        = (⟨[1, 1], Dtype.float32, Device.cpu, [Val.num 3]⟩ : Arr).shape ∧
      (⟨[1, 1], Dtype.float32, Device.cpu, [Val.num 1]⟩ : Arr).dtype
        = (⟨[1, 1], Dtype.float32, Device.cpu, [Val.num 3]⟩ : Arr).dtype ∧
      (⟨[1, 1], Dtype.float32, Device.cpu, [Val.num 1]⟩ : Arr).device
        = (⟨[1, 1], Dtype.float32, Device.cpu, [Val.num 3]⟩ : Arr).device) ∧
    ((⟨[2], Dtype.float32, Device.cpu, [Val.num 5, Val.num 5]⟩ : Arr).shape
        = (⟨[2], Dtype.float32, Device.cpu, [Val.num 0, Val.num 0]⟩ : Arr).shape ∧
      (⟨[2], Dtype.float32, Device.cpu, [Val.num 5, Val.num 5]⟩ : Arr).dtype
        = (⟨[2], Dtype.float32, Device.cpu, [Val.num 0, Val.num 0]⟩ : Arr).dtype ∧
      (⟨[2], Dtype.float32, Device.cpu, [Val.num 5, Val.num 5]⟩ : Arr).device
        = (⟨[2], Dtype.float32, Device.cpu, [Val.num 0, Val.num 0]⟩ : Arr).device) :=
  ⟨(apply_preserves_shape_dtype { scale := 1, dtype := none }
      { fill_value := FillValue.scalar (Val.num 5), dtype := none }
      ⟨[1, 1], Dtype.float32, Device.cpu, [Val.num 3]⟩
      ⟨[1, 1], Dtype.float32, Device.cpu, [Val.num 1]⟩
      ⟨[2], Dtype.float32, Device.cpu, [Val.num 5, Val.num 5]⟩).1 (by rfl),
   (apply_preserves_shape_dtype { scale := 1, dtype := none }
      { fill_value := FillValue.scalar (Val.num 5), dtype := none }
      ⟨[2], Dtype.float32, Device.cpu, [Val.num 0, Val.num 0]⟩
      ⟨[1, 1], Dtype.float32, Device.cpu, [Val.num 1]⟩
      ⟨[2], Dtype.float32, Device.cpu, [Val.num 5, Val.num 5]⟩).2 (by rfl)⟩

/-- C8: apply is idempotent: if an apply (Identity or Constant, hence also
Zero/One/NaN) succeeds producing `r`, applying the same initializer to `r`
succeeds and produces `r` again — twice in succession equals once. -/
theorem apply_idempotent (idn : Identity) (c : Constant) (A rI rC : Arr) :
    (Identity.call idn A = .ok rI → Identity.call idn rI = .ok rI) ∧
    (Constant.call c A = .ok rC → Constant.call c rC = .ok rC) := by
  constructor
  · intro h
    obtain ⟨d, rfl⟩ := identity_call_ok idn A rI h
    rw [identity_call_data_irrel]
    exact h
  · intro h
    obtain ⟨d, rfl⟩ := constant_call_ok c A rC h
    rw [constant_call_data_irrel]
    exact h

theorem apply_idempotent_witness :
    (Identity.call { scale := 2, dtype := none }
        ⟨[1, 1], Dtype.float32, Device.cpu, [Val.num 2]⟩
      = .ok ⟨[1, 1], Dtype.float32, Device.cpu, [Val.num 2]⟩) ∧
    (Constant.call { fill_value := FillValue.scalar (Val.num 5), dtype := none }
        ⟨[2], Dtype.float32, Device.cpu, [Val.num 5, Val.num 5]⟩
      = .ok ⟨[2], Dtype.float32, Device.cpu, [Val.num 5, Val.num 5]⟩) :=
  ⟨(apply_idempotent { scale := 2, dtype := none }
      { fill_value := FillValue.scalar (Val.num 5), dtype := none }
      ⟨[1, 1], Dtype.float32, Device.cpu, [Val.num 7]⟩
      ⟨[1, 1], Dtype.float32, Device.cpu, [Val.num 2]⟩
      ⟨[2], Dtype.float32, Device.cpu, [Val.num 5, Val.num 5]⟩).1 (by rfl),
   (apply_idempotent { scale := 2, dtype := none }
      { fill_value := FillValue.scalar (Val.num 5), dtype := none }
      ⟨[2], Dtype.float32, Device.cpu, [Val.num 0, Val.num 0]⟩
      ⟨[1, 1], Dtype.float32, Device.cpu, [Val.num 2]⟩
      ⟨[2], Dtype.float32, Device.cpu, [Val.num 5, Val.num 5]⟩).2 (by rfl)⟩

/-- C9: in `Identity.__call__` the dtype assertion is evaluated before the
shape validation: on an array with both a mismatched dtype and a non-square
or non-2-D shape, the call fails with the fatal `AssertionError`, and the
recoverable shape `ValueError` is never raised. -/
theorem identity_assert_precedes_shape (s : Int) (dt : Dtype) (A : Arr)
    (hdt : A.dtype ≠ dt)
    (hshape : A.shape.length ≠ 2 ∨ A.shape.getD 0 0 ≠ A.shape.getD 1 0) :
    Identity.call { scale := s, dtype := some dt } A = .error PyErr.assertionError ∧
    Identity.call { scale := s, dtype := some dt } A
      ≠ .error (PyErr.valueError identityShapeMsg) := by
  have h1 : Identity.call { scale := s, dtype := some dt } A = .error PyErr.assertionError := by
    rw [Identity.call]
    simp [dtypeAssert, hdt]
  refine ⟨h1, ?_⟩
  rw [h1]
  simp

theorem identity_assert_precedes_shape_witness :
    Identity.call { scale := 1, dtype := some Dtype.float32 }
        ⟨[2, 3], Dtype.float64, Device.cpu, List.replicate 6 (Val.num 0)⟩
      = .error PyErr.assertionError ∧
    Identity.call { scale := 1, dtype := some Dtype.float32 }
        ⟨[2, 3], Dtype.float64, Device.cpu, List.replicate 6 (Val.num 0)⟩
      ≠ .error (PyErr.valueError identityShapeMsg) :=
  identity_assert_precedes_shape 1 Dtype.float32
    ⟨[2, 3], Dtype.float64, Device.cpu, List.replicate 6 (Val.num 0)⟩
    (by decide) (by decide)

/-- C10: the result of an Identity apply does not depend on the array's
prior contents: two square 2-D arrays of the same shape, dtype and device
but arbitrary (possibly different) initial contents receive the very same
successful result. -/
theorem identity_content_independent (s : Int) (n : Nat) (dt : Dtype) (dev : Device)
    (dA dB : List Val) :
    ∃ r, Identity.call { scale := s, dtype := none } ⟨[n, n], dt, dev, dA⟩ = .ok r ∧
      Identity.call { scale := s, dtype := none } ⟨[n, n], dt, dev, dB⟩ = .ok r := by
  refine ⟨⟨[n, n], dt, dev, identityTimes n s⟩, ?_, ?_⟩ <;>
    simp [Identity.call, dtypeAssert]

end Chainer
